import Mathlib

/-!
Shallow embedding of the Account Management Workflow pipeline
(src/app.py and src/app_copy.py): identity resolution, temporal and spend
aggregation, the right/left-join record merger, tier classification, phone
reconciliation, and the tier summary, together with the remote-fetch error
path of the app_copy variant.

Data frames are embedded as lists of records, missing cells as `Option`,
monetary amounts as rationals, and the pandas `today` timestamp as an
explicit calendar-date parameter.
-/

namespace AccountWF

/-- Loyalty tier labels returned by `assign_tier` (src/app.py lines 107-123). -/
inductive Tier where
  | VIP
  | Platinum
  | Gold
  | Silver
  | Bronze
deriving DecidableEq

/-- A calendar date (year, month, day): the values of `pay["Date"]` and the
processing date `today = pd.Timestamp.today()`. -/
structure PDate where
  year : ℤ
  month : ℤ
  day : ℤ
deriving DecidableEq

/-- Lexicographic date comparison, backing the pandas `min`/`max` date
aggregations. -/
def dateLe (a b : PDate) : Bool :=
  if a.year = b.year then
    if a.month = b.month then decide (a.day ≤ b.day) else decide (a.month < b.month)
  else decide (a.year < b.year)

/-- Smaller of two dates. -/
def minD (a b : PDate) : PDate := if dateLe a b then a else b

/-- Larger of two dates. -/
def maxD (a b : PDate) : PDate := if dateLe a b then b else a

/-- Embeds `months_since_first` (src/app.py lines 73-78): delta of years, months and
days between the first payment date and `today`, with a 30-day divisor for the
partial days, rounded up with `ceil`. -/
def months_since_first (today : PDate) (date : PDate) : ℤ :=
  Int.ceil ((((today.year - date.year) * 12 + (today.month - date.month) : ℤ) : ℚ)
    + ((today.day - date.day : ℤ) : ℚ) / 30)

/-- Python `str(x)` as applied by the resolution lambda: a missing candidate
(`None`/NaN cell read back as `None`) prints as `"None"`, which contains no
`@`. -/
def strOf : Option String → String
  | some s => s
  | none => "None"

/-- The `"@" in str(x)` test of the resolution lambda: membership of the
character `@`, computed on the string's character list. -/
def hasAt (s : String) : Bool := s.data.contains '@'

/-- Embeds `str.strip()` on a character list: drop whitespace from both ends. -/
def stripChars (l : List Char) : List Char :=
  ((l.dropWhile Char.isWhitespace).reverse.dropWhile Char.isWhitespace).reverse

/-- pandas `str.strip()` on one cell. -/
def pyStrip (s : String) : String := ⟨stripChars s.data⟩

/-- The email resolution lambda (src/app.py lines 39-54): the first of
`$email`, `$distinct_id_before_identity`, `distinct_id` whose string form
contains `@`; `None` when none qualifies. -/
def resolveEmail (email beforeId distinctId : Option String) : Option String :=
  if hasAt (strOf email) then email
  else if hasAt (strOf beforeId) then beforeId
  else if hasAt (strOf distinctId) then distinctId
  else none

/-- One row of the payment API export. `pd.to_datetime(.., unit="s").dt.date`
is modelled by carrying the event's calendar date directly; no claim touches
the epoch-seconds-to-date conversion itself. -/
structure PaymentEvent where
  date : PDate
  email : Option String
  beforeId : Option String
  distinctId : Option String
deriving DecidableEq

/-- Rows of `pay` after the email lambda and `dropna(subset=['Email'])`
(src/app.py lines 39-61): pairs of resolved email and event date. -/
def resolvedEvents (events : List PaymentEvent) : List (String × PDate) :=
  events.filterMap fun ev =>
    (resolveEmail ev.email ev.beforeId ev.distinctId).map fun e => (e, ev.date)

/-- Worker for `dedupByKey`: keep each row whose key has not been seen yet. -/
def dedupAux {α : Type} (key : α → String) (seen : List String) : List α → List α
  | [] => []
  | x :: xs =>
    if key x ∈ seen then dedupAux key seen xs
    else x :: dedupAux key (key x :: seen) xs

/-- Embeds `drop_duplicates(subset='Email')` and groupby key extraction: keep the
first row for each key value. -/
def dedupByKey {α : Type} (key : α → String) (l : List α) : List α :=
  dedupAux key [] l

/-- One row of `pay1` (src/app.py lines 64-80). -/
structure Pay1Row where
  email : String
  firstPayment : PDate
  lastPayment : PDate
  durationMonths : ℤ
deriving DecidableEq

/-- Embeds `pay1` (src/app.py lines 64-80): group resolved events by email, take the
min and max event date, and compute `Duration_Months`. Groups are nonempty by
construction, so the `[]` fallback is never reached. -/
def pay1 (today : PDate) (events : List PaymentEvent) : List Pay1Row :=
  let resolved := resolvedEvents events
  (dedupByKey id (resolved.map Prod.fst)).map fun e =>
    match (resolved.filter fun p => p.1 == e).map Prod.snd with
    | [] => ⟨e, ⟨0, 0, 0⟩, ⟨0, 0, 0⟩, 0⟩
    | d :: ds =>
      ⟨e, ds.foldl minD d, ds.foldl maxD d, months_since_first today (ds.foldl minD d)⟩

/-- One row of the payment Mixpanel (spend) export. -/
structure SpendRow where
  email : String
  amountAllTime : ℚ
  amountYear : ℚ
  amountMonth : ℚ
  workspace : Option String
deriving DecidableEq

/-- One row of `pay2`, the per-email spend aggregate. -/
structure Pay2Row where
  email : String
  amountAllTime : ℚ
  amountYear : ℚ
  amountMonth : ℚ
  workspace : Option String
deriving DecidableEq

/-- Embeds `pay2` (src/app.py lines 85-90): groupby `Email`, sum the three amount
columns, keep the first non-null `Workspace`. -/
def pay2 (spend : List SpendRow) : List Pay2Row :=
  (dedupByKey id (spend.map SpendRow.email)).map fun e =>
    let rows := spend.filter fun r => r.email == e
    ⟨e, (rows.map SpendRow.amountAllTime).sum, (rows.map SpendRow.amountYear).sum,
      (rows.map SpendRow.amountMonth).sum, (rows.filterMap SpendRow.workspace).head?⟩

/-- Round a rational to the nearest integer, ties to even (numpy rounding). -/
def roundHalfEven (q : ℚ) : ℤ :=
  if q - ⌊q⌋ < 1 / 2 then ⌊q⌋
  else if 1 / 2 < q - ⌊q⌋ then ⌊q⌋ + 1
  else if Even ⌊q⌋ then ⌊q⌋ else ⌊q⌋ + 1

/-- pandas `.round(2)`. -/
def round2 (q : ℚ) : ℚ := (roundHalfEven (q * 100) : ℚ) / 100

/-- Embeds `Amount_per_month` (src/app.py lines 95-101): `np.where(Duration_Months >
0, all_time / duration, all_time)` followed by `.round(2)` on the whole
column. A null duration (spend-only row after the right join) is NaN in the
frame and `NaN > 0` is False, so it takes the else branch. -/
def amountPerMonth (duration : Option ℤ) (amountAllTime : ℚ) : ℚ :=
  round2 (match duration with
    | some d => if 0 < d then amountAllTime / (d : ℚ) else amountAllTime
    | none => amountAllTime)

/-- Embeds `assign_tier` (src/app.py lines 107-123). Python `x >= k` is written
`k ≤ x` and `x > k` is written `k < x`. -/
def assign_tier (duration amount : ℚ) : Tier :=
  if 24 ≤ duration ∧ 30 ≤ amount then .VIP
  else if (12 ≤ duration ∧ 120 < amount) ∨ (6 ≤ duration ∧ 180 < amount)
      ∨ (3 ≤ duration ∧ 300 < amount) then .Platinum
  else if (6 ≤ duration ∧ 80 < amount) ∨ (3 ≤ duration ∧ 120 < amount) then .Gold
  else if (6 ≤ duration ∧ 60 ≤ amount) ∨ (3 ≤ duration ∧ 80 < amount) then .Silver
  else .Bronze

/-- Tier of a merged row in src/app.py: `Duration_Months` is NaN for
spend-only rows, every float comparison with NaN is False, and each rule of
the cascade conjoins a duration comparison, so the cascade falls through to
Bronze. -/
def assign_tier_row (duration : Option ℤ) (amount : ℚ) : Tier :=
  match duration with
  | some d => assign_tier (d : ℚ) amount
  | none => Tier.Bronze

/-- One row of `pay_merged` (src/app.py lines 93-125): the right join of
`pay1` with `pay2` plus `Amount_per_month` and `Tier`. -/
structure MergedRow where
  email : String
  firstPayment : Option PDate
  lastPayment : Option PDate
  durationMonths : Option ℤ
  amountAllTime : ℚ
  amountYear : ℚ
  amountMonth : ℚ
  workspace : Option String
  amountPerMonth : ℚ
  tier : Tier
deriving DecidableEq

/-- Embeds `pd.merge(pay1, pay2, on='Email', how='right')` (src/app.py line 93)
followed by the `Amount_per_month` and `Tier` computations. `pay1` has unique
emails (groupby output), so the right join keeps one row per `pay2` row, with
null payment facts when the email has no payment history. -/
def payMerged (today : PDate) (events : List PaymentEvent) (spend : List SpendRow) :
    List MergedRow :=
  (pay2 spend).map fun r =>
    let l := (pay1 today events).find? fun p => p.email == r.email
    let dur := l.map Pay1Row.durationMonths
    let apm := amountPerMonth dur r.amountAllTime
    ⟨r.email, l.map Pay1Row.firstPayment, l.map Pay1Row.lastPayment, dur,
      r.amountAllTime, r.amountYear, r.amountMonth, r.workspace, apm,
      assign_tier_row dur apm⟩

/-- One row of the Pipedrive contacts export (after `str.title()` of the
column names). -/
structure ContactRow where
  email : String
  fullName : Option String
  firstName : Option String
  lastName : Option String
  phone : Option String
  phoneCountryName : Option String
deriving DecidableEq

/-- Pipedrive cleanup (src/app.py lines 130-134): strip `Email` and
`Phone_Country_Name`, then drop duplicate emails keeping the first row. -/
def contactsClean (contacts : List ContactRow) : List ContactRow :=
  dedupByKey ContactRow.email <| contacts.map fun c =>
    { c with email := pyStrip c.email, phoneCountryName := c.phoneCountryName.map pyStrip }

/-- One row of `pay_merged_contacts` (src/app.py lines 136-137). -/
structure CMRow where
  email : String
  firstPayment : Option PDate
  lastPayment : Option PDate
  durationMonths : Option ℤ
  amountAllTime : ℚ
  amountYear : ℚ
  amountMonth : ℚ
  workspace : Option String
  amountPerMonth : ℚ
  tier : Tier
  fullName : Option String
  firstName : Option String
  lastName : Option String
  phone : Option String
  phoneCountryName : Option String
deriving DecidableEq

/-- Left join with the cleaned Pipedrive contacts plus the following
`drop_duplicates(subset='Email')` (src/app.py lines 136-137). -/
def mergeContacts (merged : List MergedRow) (contacts : List ContactRow) : List CMRow :=
  dedupByKey CMRow.email <| merged.map fun m =>
    let c := (contactsClean contacts).find? fun c => c.email == m.email
    ⟨m.email, m.firstPayment, m.lastPayment, m.durationMonths, m.amountAllTime,
      m.amountYear, m.amountMonth, m.workspace, m.amountPerMonth, m.tier,
      c.bind ContactRow.fullName, c.bind ContactRow.firstName, c.bind ContactRow.lastName,
      c.bind ContactRow.phone, c.bind ContactRow.phoneCountryName⟩

/-- One row of the unpaid-user signup source (columns `$email` renamed
`Email`, `Phone Number`, `Phone Number Country`). -/
structure UnpaidRow where
  email : String
  phoneNumber : Option String
  phoneNumberCountry : Option String
deriving DecidableEq

/-- Unpaid-user cleanup (src/app.py lines 142-144): column selection, rename,
and `drop_duplicates(subset='Email')`. -/
def unpaidClean (unpaid : List UnpaidRow) : List UnpaidRow :=
  dedupByKey UnpaidRow.email unpaid

/-- Embeds `undefined_values` (src/app.py line 151). -/
def undefined_values : List String :=
  ["", " ", "  ", "undefined", "Undefined", "none", "None", "nan", "NaN"]

/-- Embeds `astype(str)` on one phone cell: a missing cell (NaN) prints as `"nan"`. -/
def cellStr : Option String → String
  | some s => s
  | none => "nan"

/-- Embeds `astype(str).str.strip().replace(undefined_values, pd.NA)` applied to one
phone cell (src/app.py lines 153-156). -/
def cleanPhone (v : Option String) : Option String :=
  let s := pyStrip (cellStr v)
  if s ∈ undefined_values then none else some s

/-- One row of the final report, in the column order of src/app.py lines
161-164. -/
structure FinalRow where
  email : String
  fullName : Option String
  firstName : Option String
  lastName : Option String
  phoneNumber : Option String
  phoneCountry : Option String
  firstPayment : Option PDate
  lastPayment : Option PDate
  durationMonths : Option ℤ
  amountAllTime : ℚ
  amountYear : ℚ
  amountMonth : ℚ
  workspace : Option String
  amountPerMonth : ℚ
  tier : Tier
deriving DecidableEq

/-- Embeds `final_merged` (src/app.py lines 146-164): left join with the cleaned
unpaid-user rows, then phone cleaning. `Phone_Number` is
`final_merged['Phone Number'].fillna(final_merged['Phone'])` -- the
unpaid-source column filled from the Pipedrive column -- and `Phone_Country`
is `final_merged['Phone_Country_Name'].fillna(final_merged['Phone Number
Country'])` -- the Pipedrive column filled from the unpaid-source column. -/
def finalReport (today : PDate) (events : List PaymentEvent) (spend : List SpendRow)
    (contacts : List ContactRow) (unpaid : List UnpaidRow) : List FinalRow :=
  (mergeContacts (payMerged today events spend) contacts).map fun m =>
    let u := (unpaidClean unpaid).find? fun x => x.email == m.email
    ⟨m.email, m.fullName, m.firstName, m.lastName,
      (cleanPhone (u.bind UnpaidRow.phoneNumber)).orElse fun _ => cleanPhone m.phone,
      (cleanPhone m.phoneCountryName).orElse fun _ =>
        cleanPhone (u.bind UnpaidRow.phoneNumberCountry),
      m.firstPayment, m.lastPayment, m.durationMonths, m.amountAllTime,
      m.amountYear, m.amountMonth, m.workspace, m.amountPerMonth, m.tier⟩

/-- The fixed display order of tiers (src/app.py line 177). -/
def tier_order : List Tier := [.VIP, .Platinum, .Gold, .Silver, .Bronze]

/-- One row of the tier summary. -/
structure SummaryRow where
  tier : Tier
  numberOfUsers : ℕ
  percentage : ℚ
deriving DecidableEq

/-- The denominator of the percentage column:
`tier_summary['Number_of_Users'].sum()` -- every row's email is a non-null
groupby key, so this is the number of final report rows. -/
def totalUsers (report : List FinalRow) : ℕ :=
  (tier_order.map fun t => (report.filter fun r => r.tier == t).length).sum

/-- Embeds `tier_summary` (src/app.py lines 169-179): groupby `Tier` (only tiers
present in the data produce a group), count rows, percentage of the total
rounded to 2 decimals, and the rows sorted by the categorical `tier_order`. -/
def tierSummary (report : List FinalRow) : List SummaryRow :=
  (tier_order.filter fun t => report.any fun r => r.tier == t).map fun t =>
    ⟨t, (report.filter fun r => r.tier == t).length,
      round2 (((report.filter fun r => r.tier == t).length : ℚ) / (totalUsers report : ℚ) * 100)⟩

/-- Python `int(q)` on a float: truncation toward zero. -/
def truncInt (q : ℚ) : ℤ := if 0 ≤ q then ⌊q⌋ else ⌈q⌉

/-- Python `q or 0` on a number: `0` when the value is falsy (zero), the value
itself otherwise -- the identity on rationals. -/
def pyOrZero (q : ℚ) : ℚ := if q = 0 then 0 else q

/-- Embeds `assign_tier` of src/app_copy.py lines 242-266: the same cascade after the
defensive coercions `int(duration or 0)` and `float(amount or 0)`. -/
def assign_tier_copy (duration amount : ℚ) : Tier :=
  if 24 ≤ (truncInt (pyOrZero duration) : ℚ) ∧ 30 ≤ pyOrZero amount then .VIP
  else if (12 ≤ (truncInt (pyOrZero duration) : ℚ) ∧ 120 < pyOrZero amount)
      ∨ (6 ≤ (truncInt (pyOrZero duration) : ℚ) ∧ 180 < pyOrZero amount)
      ∨ (3 ≤ (truncInt (pyOrZero duration) : ℚ) ∧ 300 < pyOrZero amount) then .Platinum
  else if (6 ≤ (truncInt (pyOrZero duration) : ℚ) ∧ 80 < pyOrZero amount)
      ∨ (3 ≤ (truncInt (pyOrZero duration) : ℚ) ∧ 120 < pyOrZero amount) then .Gold
  else if (6 ≤ (truncInt (pyOrZero duration) : ℚ) ∧ 60 ≤ pyOrZero amount)
      ∨ (3 ≤ (truncInt (pyOrZero duration) : ℚ) ∧ 80 < pyOrZero amount) then .Silver
  else .Bronze

/-- Embeds `payment_api_export[['time', '$email', 'distinct_id',
'$distinct_id_before_identity']]` (src/app.py line 36): pandas bracket
selection raises `KeyError` naming the first missing column. -/
def selectColumns (required present : List String) : Except String (List String) :=
  match required.find? fun c => ! present.contains c with
  | some c => .error ("KeyError: " ++ c)
  | none => .ok required

/-- A placeholder cell: `pd.NA` or a numeric zero. -/
inductive Cell where
  | na
  | num (q : ℚ)
deriving DecidableEq

/-- Placeholder chosen by the `required_cols` fill loop of src/app_copy.py
lines 210-213: `0` when the column name contains `Amount` or `Payment`,
`pd.NA` otherwise. The loop of lines 151-153 always fills `pd.NA`; its four
column names contain neither word, so this function covers it as well. -/
def placeholderFor (c : String) : Cell :=
  if "Amount".toList <:+: c.toList ∨ "Payment".toList <:+: c.toList then .num 0
  else .na

/-- The missing-column fill loops of src/app_copy.py (lines 150-155,
210-213, 298-300, 309-311, 325-327): keep the present columns and append each
absent required column holding its placeholder. -/
def fillMissing (required : List String) (frame : List (String × Cell)) :
    List (String × Cell) :=
  frame ++ (required.filter fun c => ! (frame.map Prod.fst).contains c).map
    fun c => (c, placeholderFor c)

/-- Embeds `fetch_mixpanel_event` (src/app_copy.py lines 60-91), abstracted over the
rows the collaborator returns: a non-200 status raises
`RuntimeError(f"Mixpanel fetch failed for '{event_name}' (status
{resp.status_code})")`. -/
def fetch_mixpanel_event {α : Type} (eventName : String) (status : ℕ) (body : List α) :
    Except String (List α) :=
  if status ≠ 200 then
    .error ("Mixpanel fetch failed for '" ++ eventName ++ "' (status "
      ++ toString status ++ ")")
  else .ok body

/-- The fetch phase of src/app_copy.py lines 106-122: each fetch is wrapped in
try/except and a failure calls `st.stop()` before any processing, so the run
produces neither a final report nor a tier summary. The success branch runs
the common pipeline embedding. -/
def runWorkflow (payStatus unpaidStatus : ℕ) (payBody : List PaymentEvent)
    (unpaidBody : List UnpaidRow) (today : PDate) (spend : List SpendRow)
    (contacts : List ContactRow) : Except String (List FinalRow × List SummaryRow) :=
  match fetch_mixpanel_event "New Payment Made" payStatus payBody with
  | .error e => .error e
  | .ok events =>
    match fetch_mixpanel_event "Unpaid Signup User Details" unpaidStatus unpaidBody with
    | .error e => .error e
    | .ok unpaid =>
      .ok (finalReport today events spend contacts unpaid,
        tierSummary (finalReport today events spend contacts unpaid))

/-- The CRM (Pipedrive) phone candidate joined onto an email: lookup in the
cleaned contacts, null on a join miss. -/
def crmPhoneOf (contacts : List ContactRow) (e : String) : Option String :=
  ((contactsClean contacts).find? fun c => c.email == e).bind ContactRow.phone

/-- The CRM (Pipedrive) phone-country candidate joined onto an email. -/
def crmCountryOf (contacts : List ContactRow) (e : String) : Option String :=
  ((contactsClean contacts).find? fun c => c.email == e).bind ContactRow.phoneCountryName

/-- The unpaid-signup phone candidate joined onto an email. -/
def unpaidPhoneOf (unpaid : List UnpaidRow) (e : String) : Option String :=
  ((unpaidClean unpaid).find? fun u => u.email == e).bind UnpaidRow.phoneNumber

/-- The unpaid-signup phone-country candidate joined onto an email. -/
def unpaidCountryOf (unpaid : List UnpaidRow) (e : String) : Option String :=
  ((unpaidClean unpaid).find? fun u => u.email == e).bind UnpaidRow.phoneNumberCountry

/-- A final report row carrying a given tier, for the concrete tier-count
test of the summary builder. -/
def demoRow (t : Tier) : FinalRow :=
  ⟨"u@x.com", none, none, none, none, none, none, none, none, 0, 0, 0, none, 0, t⟩

/-- A final report with tier counts [10, 0, 5, 3, 2] in the order
VIP, Platinum, Gold, Silver, Bronze. -/
def demoReport : List FinalRow :=
  List.replicate 10 (demoRow .VIP) ++ List.replicate 0 (demoRow .Platinum)
    ++ List.replicate 5 (demoRow .Gold) ++ List.replicate 3 (demoRow .Silver)
    ++ List.replicate 2 (demoRow .Bronze)

/-! ### Helper lemmas about deduplication -/

theorem dedupAux_key_not_mem {α : Type} (key : α → String) (seen : List String)
    (l : List α) (y : α) (hy : y ∈ dedupAux key seen l) : key y ∉ seen := by
  induction l generalizing seen with
  | nil => simp [dedupAux] at hy
  | cons x xs ih =>
    by_cases h : key x ∈ seen
    · rw [dedupAux, if_pos h] at hy
      exact ih seen hy
    · rw [dedupAux, if_neg h] at hy
      rcases List.mem_cons.mp hy with rfl | hy2
      · exact h
      · intro hs
        exact ih _ hy2 (List.mem_cons_of_mem _ hs)

theorem dedupAux_subset {α : Type} (key : α → String) (seen : List String)
    (l : List α) (y : α) (hy : y ∈ dedupAux key seen l) : y ∈ l := by
  induction l generalizing seen with
  | nil => simp [dedupAux] at hy
  | cons x xs ih =>
    by_cases h : key x ∈ seen
    · rw [dedupAux, if_pos h] at hy
      exact List.mem_cons_of_mem _ (ih seen hy)
    · rw [dedupAux, if_neg h] at hy
      rcases List.mem_cons.mp hy with rfl | hy2
      · exact List.mem_cons_self y xs
      · exact List.mem_cons_of_mem _ (ih _ hy2)

theorem dedupByKey_subset {α : Type} (key : α → String) (l : List α) (y : α)
    (hy : y ∈ dedupByKey key l) : y ∈ l :=
  dedupAux_subset key [] l y hy

theorem dedupAux_eq_self {α : Type} (key : α → String) (seen : List String)
    (l : List α) (hseen : ∀ x ∈ l, key x ∉ seen) (hnd : (l.map key).Nodup) :
    dedupAux key seen l = l := by
  induction l generalizing seen with
  | nil => rfl
  | cons x xs ih =>
    rw [dedupAux, if_neg (hseen x (List.mem_cons_self x xs))]
    congr 1
    have hx : key x ∉ xs.map key := (List.nodup_cons.mp (by simpa using hnd)).1
    apply ih
    · intro y hy
      intro hmem
      rcases List.mem_cons.mp hmem with he | hs
      · exact hx (he ▸ List.mem_map_of_mem key hy)
      · exact hseen y (List.mem_cons_of_mem _ hy) hs
    · exact (List.nodup_cons.mp (by simpa using hnd)).2

theorem dedupByKey_eq_self {α : Type} (key : α → String) (l : List α)
    (hnd : (l.map key).Nodup) : dedupByKey key l = l :=
  dedupAux_eq_self key [] l (by simp) hnd

theorem dedupAux_keys_nodup {α : Type} (key : α → String) (seen : List String)
    (l : List α) : ((dedupAux key seen l).map key).Nodup := by
  induction l generalizing seen with
  | nil => simp [dedupAux]
  | cons x xs ih =>
    by_cases h : key x ∈ seen
    · rw [dedupAux, if_pos h]
      exact ih seen
    · rw [dedupAux, if_neg h]
      simp only [List.map_cons, List.nodup_cons]
      refine ⟨?_, ih _⟩
      intro hmem
      rcases List.mem_map.mp hmem with ⟨y, hy, hkey⟩
      exact (dedupAux_key_not_mem key _ xs y hy) (by simp [hkey])

theorem count_dedupAux_of_mem_seen (seen : List String) (l : List String) (e : String)
    (he : e ∈ seen) : (dedupAux id seen l).count e = 0 := by
  rw [List.count_eq_zero]
  intro hmem
  exact dedupAux_key_not_mem id seen l e hmem he

theorem count_dedupAux (seen : List String) (l : List String) (e : String)
    (he : e ∉ seen) : (dedupAux id seen l).count e = if e ∈ l then 1 else 0 := by
  induction l generalizing seen with
  | nil => simp [dedupAux]
  | cons x xs ih =>
    by_cases h : x ∈ seen
    · have hne : e ≠ x := fun he2 => he (he2 ▸ h)
      rw [dedupAux, if_pos (show id x ∈ seen from h), ih seen he]
      simp [List.mem_cons, hne]
    · rw [dedupAux, if_neg (show ¬ id x ∈ seen from h)]
      by_cases hex : e = x
      · subst hex
        rw [List.count_cons_self,
          count_dedupAux_of_mem_seen (id e :: seen) xs e (by simp)]
        simp
      · rw [List.count_cons_of_ne hex, ih _ (by simp [hex, he])]
        simp [List.mem_cons, hex]

theorem count_dedupByKey (l : List String) (e : String) :
    (dedupByKey id l).count e = if e ∈ l then 1 else 0 :=
  count_dedupAux [] l e (by simp)

theorem dedupByKey_id_nodup (l : List String) : (dedupByKey id l).Nodup := by
  have h := dedupAux_keys_nodup id [] l
  simpa using h

/-! ### Email-preservation of the merge steps -/

theorem payMerged_emails (today : PDate) (events : List PaymentEvent)
    (spend : List SpendRow) :
    (payMerged today events spend).map MergedRow.email
      = dedupByKey id (spend.map SpendRow.email) := by
  unfold payMerged pay2
  rw [List.map_map, List.map_map]
  exact List.map_id _ ▸ (List.map_congr_left fun a _ => rfl)

theorem mergeContacts_emails (merged : List MergedRow) (contacts : List ContactRow)
    (hnd : (merged.map MergedRow.email).Nodup) :
    (mergeContacts merged contacts).map CMRow.email = merged.map MergedRow.email := by
  unfold mergeContacts
  rw [dedupByKey_eq_self]
  · rw [List.map_map]
    exact List.map_congr_left fun a _ => rfl
  · rw [List.map_map]
    have : merged.map (CMRow.email ∘ fun m =>
        (⟨m.email, m.firstPayment, m.lastPayment, m.durationMonths, m.amountAllTime,
          m.amountYear, m.amountMonth, m.workspace, m.amountPerMonth, m.tier,
          ((contactsClean contacts).find? fun c => c.email == m.email).bind ContactRow.fullName,
          ((contactsClean contacts).find? fun c => c.email == m.email).bind ContactRow.firstName,
          ((contactsClean contacts).find? fun c => c.email == m.email).bind ContactRow.lastName,
          ((contactsClean contacts).find? fun c => c.email == m.email).bind ContactRow.phone,
          ((contactsClean contacts).find? fun c => c.email == m.email).bind ContactRow.phoneCountryName⟩ : CMRow))
        = merged.map MergedRow.email := List.map_congr_left fun a _ => rfl
    rw [this]
    exact hnd

theorem finalReport_emails (today : PDate) (events : List PaymentEvent)
    (spend : List SpendRow) (contacts : List ContactRow) (unpaid : List UnpaidRow) :
    (finalReport today events spend contacts unpaid).map FinalRow.email
      = dedupByKey id (spend.map SpendRow.email) := by
  unfold finalReport
  rw [List.map_map]
  have h1 : (mergeContacts (payMerged today events spend) contacts).map
      (FinalRow.email ∘ fun m =>
        (⟨m.email, m.fullName, m.firstName, m.lastName,
          (cleanPhone ((((unpaidClean unpaid).find? fun x => x.email == m.email).bind
            UnpaidRow.phoneNumber))).orElse fun _ => cleanPhone m.phone,
          (cleanPhone m.phoneCountryName).orElse fun _ =>
            cleanPhone ((((unpaidClean unpaid).find? fun x => x.email == m.email).bind
              UnpaidRow.phoneNumberCountry)),
          m.firstPayment, m.lastPayment, m.durationMonths, m.amountAllTime,
          m.amountYear, m.amountMonth, m.workspace, m.amountPerMonth, m.tier⟩ : FinalRow))
      = (mergeContacts (payMerged today events spend) contacts).map CMRow.email :=
    List.map_congr_left fun a _ => rfl
  rw [h1, mergeContacts_emails, payMerged_emails]
  rw [payMerged_emails]
  exact dedupByKey_id_nodup _

/-! ### Claim theorems -/

/-- C2: `assign_tier` is total for duration ≥ 0 and amount ≥ 0, returning
exactly one of VIP/Platinum/Gold/Silver/Bronze by evaluating the five §4.4
rules in order with the first match winning; amount uses ≥ in rule 1 and in
the first disjunct of rule 4 and strict > in every other amount comparison;
boundary cases: (24,30) is VIP, (24,29.99) is not VIP, (12,120) is not
Platinum, (12,120.01) is Platinum, and a pair matching no rule is Bronze. -/
theorem assign_tier_cascade (d a : ℚ) (hd : 0 ≤ d) (ha : 0 ≤ a) :
    (assign_tier d a = .VIP ↔ 24 ≤ d ∧ 30 ≤ a) ∧
    (assign_tier d a = .Platinum ↔ ¬(24 ≤ d ∧ 30 ≤ a) ∧
      ((12 ≤ d ∧ 120 < a) ∨ (6 ≤ d ∧ 180 < a) ∨ (3 ≤ d ∧ 300 < a))) ∧
    (assign_tier d a = .Gold ↔ ¬(24 ≤ d ∧ 30 ≤ a) ∧
      ¬((12 ≤ d ∧ 120 < a) ∨ (6 ≤ d ∧ 180 < a) ∨ (3 ≤ d ∧ 300 < a)) ∧
      ((6 ≤ d ∧ 80 < a) ∨ (3 ≤ d ∧ 120 < a))) ∧
    (assign_tier d a = .Silver ↔ ¬(24 ≤ d ∧ 30 ≤ a) ∧
      ¬((12 ≤ d ∧ 120 < a) ∨ (6 ≤ d ∧ 180 < a) ∨ (3 ≤ d ∧ 300 < a)) ∧
      ¬((6 ≤ d ∧ 80 < a) ∨ (3 ≤ d ∧ 120 < a)) ∧
      ((6 ≤ d ∧ 60 ≤ a) ∨ (3 ≤ d ∧ 80 < a))) ∧
    (assign_tier d a = .Bronze ↔ ¬(24 ≤ d ∧ 30 ≤ a) ∧
      ¬((12 ≤ d ∧ 120 < a) ∨ (6 ≤ d ∧ 180 < a) ∨ (3 ≤ d ∧ 300 < a)) ∧
      ¬((6 ≤ d ∧ 80 < a) ∨ (3 ≤ d ∧ 120 < a)) ∧
      ¬((6 ≤ d ∧ 60 ≤ a) ∨ (3 ≤ d ∧ 80 < a))) ∧
    assign_tier 24 30 = .VIP ∧ assign_tier 24 29.99 ≠ .VIP ∧
    assign_tier 12 120 ≠ .Platinum ∧ assign_tier 12 120.01 = .Platinum := by
  refine ⟨?_, ?_, ?_, ?_, ?_, by with_unfolding_all decide, by with_unfolding_all decide,
    by with_unfolding_all decide, by with_unfolding_all decide⟩ <;>
    (unfold assign_tier; split_ifs with h1 h2 h3 h4 <;> simp_all)

/-- Witness for C2 at the (24, 30) boundary. -/
theorem assign_tier_cascade_witness : assign_tier 24 30 = Tier.VIP :=
  (assign_tier_cascade 24 30 (by norm_num) (by norm_num)).2.2.2.2.2.1

theorem truncInt_le_iff (d : ℚ) (k : ℤ) (hk : 1 ≤ k) :
    ((k : ℚ) ≤ (truncInt d : ℚ)) ↔ (k : ℚ) ≤ d := by
  unfold truncInt
  split_ifs with h
  · exact Iff.trans Int.cast_le Int.le_floor
  · push_neg at h
    have h0 : (⌈d⌉ : ℤ) ≤ 0 := Int.ceil_le.mpr (by exact_mod_cast h.le)
    have h1 : ((⌈d⌉ : ℤ) : ℚ) ≤ 0 := by exact_mod_cast h0
    have h2 : (1 : ℚ) ≤ (k : ℚ) := by exact_mod_cast hk
    constructor
    · intro hc
      linarith
    · intro hc
      linarith

/-- C10: the tier function of src/app.py and the defensively coerced tier
function of src/app_copy.py are extensionally equal on numeric inputs: the
`int(duration or 0)` / `float(amount or 0)` coercions change nothing. -/
theorem assign_tier_variants_equal (d a : ℚ) :
    assign_tier_copy d a = assign_tier d a := by
  have hz : pyOrZero d = d := by
    unfold pyOrZero
    split_ifs with h
    · exact h.symm
    · rfl
  have hza : pyOrZero a = a := by
    unfold pyOrZero
    split_ifs with h
    · exact h.symm
    · rfl
  unfold assign_tier_copy assign_tier
  rw [hz, hza]
  have h24 := truncInt_le_iff d 24 (by norm_num)
  have h12 := truncInt_le_iff d 12 (by norm_num)
  have h6 := truncInt_le_iff d 6 (by norm_num)
  have h3 := truncInt_le_iff d 3 (by norm_num)
  push_cast at h24 h12 h6 h3
  simp only [h24, h12, h6, h3]

/-- C6: email resolution returns the first of the three candidate fields whose
string form contains '@' (never a lower-priority field when a higher-priority
one qualifies), every resolved email contains '@', and an event with no
qualifying candidate contributes no row to the resolved payment rows. -/
theorem email_resolution (e b dd : Option String) (v : String) (ev : PaymentEvent)
    (l1 l2 : List PaymentEvent) :
    (resolveEmail e b dd = some v → hasAt v = true) ∧
    (hasAt (strOf e) = true → resolveEmail e b dd = e) ∧
    (hasAt (strOf e) = false → hasAt (strOf b) = true → resolveEmail e b dd = b) ∧
    (hasAt (strOf e) = false → hasAt (strOf b) = false → hasAt (strOf dd) = true →
      resolveEmail e b dd = dd) ∧
    (hasAt (strOf e) = false → hasAt (strOf b) = false → hasAt (strOf dd) = false →
      resolveEmail e b dd = none) ∧
    (∀ p ∈ resolvedEvents l1, hasAt p.1 = true) ∧
    (resolveEmail ev.email ev.beforeId ev.distinctId = none →
      resolvedEvents (l1 ++ ev :: l2) = resolvedEvents (l1 ++ l2)) := by
  have key : ∀ (x y z : Option String) (w : String),
      resolveEmail x y z = some w → hasAt w = true := by
    intro x y z w h
    unfold resolveEmail at h
    split_ifs at h with hx hy hz
    · cases x with
      | none => exact absurd hx (by decide)
      | some s =>
        injection h with h2
        exact h2 ▸ hx
    · cases y with
      | none => exact absurd hy (by decide)
      | some s =>
        injection h with h2
        exact h2 ▸ hy
    · cases z with
      | none => exact absurd hz (by decide)
      | some s =>
        injection h with h2
        exact h2 ▸ hz
  refine ⟨key e b dd v, ?_, ?_, ?_, ?_, ?_, ?_⟩
  · intro h
    simp [resolveEmail, h]
  · intro h hb
    simp [resolveEmail, h, hb]
  · intro h hb hdd
    simp [resolveEmail, h, hb, hdd]
  · intro h hb hdd
    simp [resolveEmail, h, hb, hdd]
  · intro p hp
    rcases List.mem_filterMap.mp hp with ⟨ev2, _, hev⟩
    rcases Option.map_eq_some'.mp hev with ⟨x, hx, hpx⟩
    have := key ev2.email ev2.beforeId ev2.distinctId x hx
    rw [← hpx]
    exact this
  · intro h
    unfold resolvedEvents
    rw [List.filterMap_append, List.filterMap_append]
    congr 1
    simp [List.filterMap_cons, h]

/-- Witness for C6: the primary field qualifies and is returned. -/
theorem email_resolution_witness :
    resolveEmail (some "a@x.com") (some "sess-1") (some "sess-2") = some "a@x.com" :=
  (email_resolution (some "a@x.com") (some "sess-1") (some "sess-2") "a@x.com"
    ⟨⟨2026, 1, 1⟩, none, none, none⟩ [] []).2.1 (by decide)

/-- C5: every email present in the spend export appears exactly once as a row
of the final report, and an email absent from the spend export -- in
particular one present only in payment events -- appears in no row. -/
theorem right_join_emails (today : PDate) (events : List PaymentEvent)
    (spend : List SpendRow) (contacts : List ContactRow) (unpaid : List UnpaidRow)
    (e : String) :
    (e ∈ spend.map SpendRow.email →
      ((finalReport today events spend contacts unpaid).map FinalRow.email).count e = 1) ∧
    (e ∉ spend.map SpendRow.email →
      ((finalReport today events spend contacts unpaid).map FinalRow.email).count e = 0) := by
  rw [finalReport_emails, count_dedupByKey]
  constructor
  · intro h
    simp [h]
  · intro h
    simp [h]

/-- Witness for C5 at a one-row spend export. -/
theorem right_join_emails_witness :
    ((finalReport ⟨2026, 10, 12⟩ [] [⟨"a@x.com", 300, 0, 0, none⟩] [] []).map
      FinalRow.email).count "a@x.com" = 1 :=
  (right_join_emails ⟨2026, 10, 12⟩ [] [⟨"a@x.com", 300, 0, 0, none⟩] [] []
    "a@x.com").1 (by with_unfolding_all decide)

set_option maxRecDepth 8000 in
/-- C1 counterexample: with CRM phone "+1234" and unpaid phone "+5678" (both
non-sentinel) the final report carries "+5678" -- the unpaid-signup column
takes priority for the phone number, not the CRM one -- and an upper-case
"UNDEFINED" CRM phone country survives reconciliation because the sentinel
list is case-sensitive, so the claimed CRM-priority, any-case-sentinel
reconciliation is false on both fields. -/
theorem phone_reconciliation_counterexample :
    ((finalReport ⟨2026, 10, 12⟩ [] [⟨"a@x.com", 300, 0, 0, none⟩]
        [⟨"a@x.com", none, none, none, some "+1234", some "UNDEFINED"⟩]
        [⟨"a@x.com", some "+5678", some "Nepal"⟩]).map fun r =>
        (r.phoneNumber, r.phoneCountry))
      = [(some "+5678", some "UNDEFINED")] ∧
    (some "+5678" : Option String) ≠ some "+1234" ∧
    (some "UNDEFINED" : Option String) ≠ some "Nepal" := by
  with_unfolding_all decide

/-- C1 amended: in every final report row the reconciled phone number is the
unpaid-signup candidate when it survives cleaning (trim, then the literal
case-sensitive sentinel list maps to null) with the CRM candidate as
fallback, while the reconciled phone country prefers the CRM candidate with
the unpaid-signup candidate as fallback. -/
theorem phone_reconciliation_amended (today : PDate) (events : List PaymentEvent)
    (spend : List SpendRow) (contacts : List ContactRow) (unpaid : List UnpaidRow)
    (r : FinalRow) (hr : r ∈ finalReport today events spend contacts unpaid) :
    r.phoneNumber = (cleanPhone (unpaidPhoneOf unpaid r.email)).orElse
      (fun _ => cleanPhone (crmPhoneOf contacts r.email)) ∧
    r.phoneCountry = (cleanPhone (crmCountryOf contacts r.email)).orElse
      (fun _ => cleanPhone (unpaidCountryOf unpaid r.email)) := by
  unfold finalReport at hr
  rcases List.mem_map.mp hr with ⟨m, hm, rfl⟩
  unfold mergeContacts at hm
  have hm2 := dedupByKey_subset CMRow.email _ m hm
  rcases List.mem_map.mp hm2 with ⟨p, hp, rfl⟩
  exact ⟨rfl, rfl⟩

set_option maxRecDepth 8000 in
/-- Witness for C1 amended at a concrete one-customer run. -/
theorem phone_reconciliation_amended_witness :
    (⟨"a@x.com", none, none, none, some "+5678", some "US", none, none, none,
      300, 0, 0, none, 300, Tier.Bronze⟩ : FinalRow).phoneNumber
      = (cleanPhone (unpaidPhoneOf [⟨"a@x.com", some "+5678", some "NP"⟩] "a@x.com")).orElse
        (fun _ => cleanPhone (crmPhoneOf
          [⟨"a@x.com", none, none, none, some "+1234", some "US"⟩] "a@x.com")) :=
  (phone_reconciliation_amended ⟨2026, 10, 12⟩ [] [⟨"a@x.com", 300, 0, 0, none⟩]
    [⟨"a@x.com", none, none, none, some "+1234", some "US"⟩]
    [⟨"a@x.com", some "+5678", some "NP"⟩] _ (by with_unfolding_all decide)).1

set_option maxRecDepth 8000 in
/-- C3 (code bug): in src/app.py a spend-export customer with no payment
events reaches tier assignment and the final report with a null
Duration_Months -- the right join leaves NaN and, unlike src/app_copy.py
line 228, no fillna(0) is applied -- instead of the integer 0 the claim
requires; the payment-only email b@y.com is dropped. -/
theorem duration_null_for_spend_only :
    ((finalReport ⟨2026, 10, 12⟩ [⟨⟨2026, 1, 1⟩, some "b@y.com", none, none⟩]
        [⟨"a@x.com", 300, 0, 0, none⟩] [] []).map fun r => (r.email, r.durationMonths))
      = [("a@x.com", (none : Option ℤ))] := by
  with_unfolding_all decide

set_option maxRecDepth 8000 in
/-- C4 counterexample: a merged record with duration 0 (payment event on the
processing day) and amount_all_time 1.234 gets Amount_per_month 1.23, not
1.234: the `.round(2)` applies to both branches of the np.where, so equality
with amount_all_time is not exact. -/
theorem amount_per_month_counterexample :
    ((payMerged ⟨2026, 10, 12⟩ [⟨⟨2026, 10, 12⟩, some "a@x.com", none, none⟩]
        [⟨"a@x.com", 1.234, 0, 0, none⟩]).map fun r =>
        (r.durationMonths, r.amountAllTime, r.amountPerMonth))
      = [((some 0 : Option ℤ), (1.234 : ℚ), (1.23 : ℚ))] ∧ (1.23 : ℚ) ≠ 1.234 := by
  with_unfolding_all decide

theorem amountPerMonth_cases (dur : Option ℤ) (a : ℚ) :
    (∀ d : ℤ, dur = some d → 0 < d → amountPerMonth dur a = round2 (a / (d : ℚ))) ∧
    (∀ d : ℤ, dur = some d → ¬ 0 < d → amountPerMonth dur a = round2 a) ∧
    (dur = none → amountPerMonth dur a = round2 a) := by
  refine ⟨?_, ?_, ?_⟩
  · intro d hd hpos
    rw [hd]
    show round2 (if 0 < d then a / (d : ℚ) else a) = round2 (a / (d : ℚ))
    rw [if_pos hpos]
  · intro d hd hpos
    rw [hd]
    show round2 (if 0 < d then a / (d : ℚ) else a) = round2 a
    rw [if_neg hpos]
  · intro hd
    rw [hd]
    rfl

/-- C4 amended: for every merged payment record, Amount_per_month is
round2(amount_all_time / duration) when duration > 0 and
round2(amount_all_time) when duration is 0, negative, or null; at duration 0
it equals amount_all_time exactly only when amount_all_time is already at
2-decimal precision. -/
theorem amount_per_month_amended (today : PDate) (events : List PaymentEvent)
    (spend : List SpendRow) (r : MergedRow) (hr : r ∈ payMerged today events spend) :
    (∀ d : ℤ, r.durationMonths = some d → 0 < d →
      r.amountPerMonth = round2 (r.amountAllTime / (d : ℚ))) ∧
    (∀ d : ℤ, r.durationMonths = some d → ¬ 0 < d →
      r.amountPerMonth = round2 r.amountAllTime) ∧
    (r.durationMonths = none → r.amountPerMonth = round2 r.amountAllTime) ∧
    (r.durationMonths = some 0 → round2 r.amountAllTime = r.amountAllTime →
      r.amountPerMonth = r.amountAllTime) := by
  unfold payMerged at hr
  rcases List.mem_map.mp hr with ⟨p, hp, rfl⟩
  refine ⟨(amountPerMonth_cases _ _).1, (amountPerMonth_cases _ _).2.1, ?_, ?_⟩
  · exact (amountPerMonth_cases _ _).2.2
  · intro h0 hra
    exact ((amountPerMonth_cases _ _).2.1 0 h0 (by norm_num)).trans hra

/-- Witness for C4 amended at a null-duration spend-only record. -/
theorem amount_per_month_amended_witness :
    (⟨"a@x.com", none, none, none, 300, 0, 0, none, 300, Tier.Bronze⟩ :
      MergedRow).amountPerMonth = round2 300 :=
  (amount_per_month_amended ⟨2026, 10, 12⟩ [] [⟨"a@x.com", 300, 0, 0, none⟩] _
    (by with_unfolding_all decide)).2.2.1 rfl

/-- C7 counterexample: src/app.py line 36 selects the payment API columns by
bracket indexing, which raises a KeyError when `$email` is absent, instead of
substituting a placeholder and continuing. -/
theorem missing_column_counterexample :
    selectColumns ["time", "$email", "distinct_id", "$distinct_id_before_identity"]
      ["time", "distinct_id"] = .error "KeyError: $email" := rfl

/-- C7 amended: the src/app_copy.py fill loops substitute a placeholder
(pd.NA, or numeric 0 for amount/payment columns) for every absent required
column and never abort: after the loop every required column is present, and
a previously absent one holds exactly its placeholder. -/
theorem missing_column_amended (required : List String) (frame : List (String × Cell))
    (c : String) (hc : c ∈ required) :
    (∃ v, (c, v) ∈ fillMissing required frame) ∧
    ((frame.map Prod.fst).contains c = false →
      (c, placeholderFor c) ∈ fillMissing required frame) := by
  have hfill : (frame.map Prod.fst).contains c = false →
      (c, placeholderFor c) ∈ fillMissing required frame := by
    intro h
    apply List.mem_append_right
    apply List.mem_map.mpr
    refine ⟨c, ?_, rfl⟩
    apply List.mem_filter.mpr
    refine ⟨hc, ?_⟩
    rw [h]
    rfl
  refine ⟨?_, hfill⟩
  by_cases h : (frame.map Prod.fst).contains c
  · have hc2 : c ∈ frame.map Prod.fst := by simpa using h
    rcases List.mem_map.mp hc2 with ⟨⟨c1, v⟩, hxv, he⟩
    simp only at he
    subst he
    exact ⟨v, List.mem_append_left _ hxv⟩
  · have h2 : (frame.map Prod.fst).contains c = false := by
      simpa using h
    exact ⟨placeholderFor c, hfill h2⟩

/-- Witness for C7 amended: a missing `$email` column is filled with pd.NA. -/
theorem missing_column_amended_witness :
    ("$email", placeholderFor "$email") ∈ fillMissing ["$email"] [] :=
  (missing_column_amended ["$email"] [] "$email" (by decide)).2 (by decide)

theorem tier_mem_tier_order (t : Tier) : t ∈ tier_order := by
  cases t <;> simp [tier_order]

set_option maxRecDepth 8000 in
/-- C8: the tier summary has one row per tier present in the final report
(zero-count tiers are omitted), rows follow the fixed VIP, Platinum, Gold,
Silver, Bronze order, and each percentage is count divided by the total row
count times 100 rounded to 2 decimals; on tier counts [10, 0, 5, 3, 2] the
emitted rows are VIP/Gold/Silver/Bronze with percentages 50, 25, 15, 10,
summing to 100.00 within 0.05. -/
theorem tier_summary_spec (report : List FinalRow) (row : SummaryRow)
    (hrow : row ∈ tierSummary report) :
    ((tierSummary report).map SummaryRow.tier
      = tier_order.filter fun t => report.any fun r => r.tier == t) ∧
    (∀ t : Tier, t ∈ (tierSummary report).map SummaryRow.tier ↔
      ∃ r ∈ report, r.tier = t) ∧
    (row.numberOfUsers = (report.filter fun r => r.tier == row.tier).length ∧
      0 < row.numberOfUsers ∧
      row.percentage
        = round2 ((row.numberOfUsers : ℚ) / (totalUsers report : ℚ) * 100)) ∧
    ((tierSummary demoReport).map fun s => (s.tier, s.numberOfUsers, s.percentage))
      = [(Tier.VIP, 10, 50), (Tier.Gold, 5, 25), (Tier.Silver, 3, 15),
          (Tier.Bronze, 2, 10)] ∧
    |((tierSummary demoReport).map SummaryRow.percentage).sum - 100| ≤ 1 / 20 := by
  have h1 : (tierSummary report).map SummaryRow.tier
      = tier_order.filter fun t => report.any fun r => r.tier == t := by
    unfold tierSummary
    rw [List.map_map]
    exact (List.map_congr_left fun t _ => rfl).trans (List.map_id _)
  have h2 : ∀ t : Tier, t ∈ (tierSummary report).map SummaryRow.tier ↔
      ∃ r ∈ report, r.tier = t := by
    intro t
    rw [h1, List.mem_filter]
    simp [tier_mem_tier_order, List.any_eq_true]
  unfold tierSummary at hrow
  rcases List.mem_map.mp hrow with ⟨t, ht, rfl⟩
  have hcnt : 0 < (report.filter fun r => r.tier == t).length := by
    have hany := (List.mem_filter.mp ht).2
    rcases List.any_eq_true.mp hany with ⟨r0, hr0, hb⟩
    exact List.length_pos_of_mem (List.mem_filter.mpr ⟨hr0, hb⟩)
  exact ⟨h1, h2, ⟨rfl, hcnt, rfl⟩, by with_unfolding_all decide,
    by with_unfolding_all decide⟩

set_option maxRecDepth 8000 in
/-- Witness for C8 at the demo report's VIP row. -/
theorem tier_summary_spec_witness :
    (⟨Tier.VIP, 10, (50 : ℚ)⟩ : SummaryRow).percentage
      = round2 (((⟨Tier.VIP, 10, (50 : ℚ)⟩ : SummaryRow).numberOfUsers : ℚ)
        / (totalUsers demoReport : ℚ) * 100) :=
  ((tier_summary_spec demoReport ⟨Tier.VIP, 10, 50⟩
    (by with_unfolding_all decide)).2.2.1).2.2

/-- C9: a non-success status on either remote fetch aborts the run before any
output -- the result is an error value, never a (final report, tier summary)
pair -- whether the 'New Payment Made' fetch fails or only the later 'Unpaid
Signup User Details' fetch fails; in each case the surfaced message contains
that source's event name and its HTTP status code. -/
theorem fetch_failure_aborts (payStatus unpaidStatus : ℕ) (payBody : List PaymentEvent)
    (unpaidBody : List UnpaidRow) (today : PDate) (spend : List SpendRow)
    (contacts : List ContactRow) :
    (payStatus ≠ 200 →
      runWorkflow payStatus unpaidStatus payBody unpaidBody today spend contacts
        = .error ("Mixpanel fetch failed for '" ++ "New Payment Made" ++ "' (status "
          ++ toString payStatus ++ ")") ∧
      ∀ out, runWorkflow payStatus unpaidStatus payBody unpaidBody today spend contacts
        ≠ .ok out) ∧
    (payStatus = 200 → unpaidStatus ≠ 200 →
      runWorkflow payStatus unpaidStatus payBody unpaidBody today spend contacts
        = .error ("Mixpanel fetch failed for '" ++ "Unpaid Signup User Details"
          ++ "' (status " ++ toString unpaidStatus ++ ")") ∧
      ∀ out, runWorkflow payStatus unpaidStatus payBody unpaidBody today spend contacts
        ≠ .ok out) ∧
    (∃ pre post, ("Mixpanel fetch failed for '" ++ "New Payment Made" ++ "' (status "
        ++ toString payStatus ++ ")") = pre ++ "New Payment Made" ++ post) ∧
    (∃ pre post, ("Mixpanel fetch failed for '" ++ "New Payment Made" ++ "' (status "
        ++ toString payStatus ++ ")") = pre ++ toString payStatus ++ post) ∧
    (∃ pre post, ("Mixpanel fetch failed for '" ++ "Unpaid Signup User Details"
        ++ "' (status " ++ toString unpaidStatus ++ ")")
      = pre ++ "Unpaid Signup User Details" ++ post) ∧
    (∃ pre post, ("Mixpanel fetch failed for '" ++ "Unpaid Signup User Details"
        ++ "' (status " ++ toString unpaidStatus ++ ")")
      = pre ++ toString unpaidStatus ++ post) := by
  refine ⟨?_, ?_, ?_, ?_, ?_, ?_⟩
  · intro h
    have hrun : runWorkflow payStatus unpaidStatus payBody unpaidBody today spend contacts
        = .error ("Mixpanel fetch failed for '" ++ "New Payment Made" ++ "' (status "
          ++ toString payStatus ++ ")") := by
      unfold runWorkflow fetch_mixpanel_event
      rw [if_pos h]
    refine ⟨hrun, ?_⟩
    intro out
    rw [hrun]
    simp
  · intro h200 hu
    have hrun : runWorkflow payStatus unpaidStatus payBody unpaidBody today spend contacts
        = .error ("Mixpanel fetch failed for '" ++ "Unpaid Signup User Details"
          ++ "' (status " ++ toString unpaidStatus ++ ")") := by
      unfold runWorkflow fetch_mixpanel_event
      rw [if_neg (fun hne => hne h200), if_pos hu]
    refine ⟨hrun, ?_⟩
    intro out
    rw [hrun]
    simp
  · refine ⟨"Mixpanel fetch failed for '",
      "' (status " ++ toString payStatus ++ ")", ?_⟩
    rw [String.append_assoc ("Mixpanel fetch failed for '" ++ "New Payment Made")
        "' (status " (toString payStatus),
      String.append_assoc ("Mixpanel fetch failed for '" ++ "New Payment Made")
        ("' (status " ++ toString payStatus) ")"]
  · exact ⟨"Mixpanel fetch failed for '" ++ "New Payment Made" ++ "' (status ",
      ")", rfl⟩
  · refine ⟨"Mixpanel fetch failed for '",
      "' (status " ++ toString unpaidStatus ++ ")", ?_⟩
    rw [String.append_assoc ("Mixpanel fetch failed for '" ++ "Unpaid Signup User Details")
        "' (status " (toString unpaidStatus),
      String.append_assoc ("Mixpanel fetch failed for '" ++ "Unpaid Signup User Details")
        ("' (status " ++ toString unpaidStatus) ")"]
  · exact ⟨"Mixpanel fetch failed for '" ++ "Unpaid Signup User Details" ++ "' (status ",
      ")", rfl⟩

/-- Witness for C9: the payment fetch failing with status 404, and the unpaid
fetch alone failing with status 500. -/
theorem fetch_failure_aborts_witness :
    runWorkflow 404 200 [] [] ⟨2026, 1, 1⟩ [] []
      = .error ("Mixpanel fetch failed for '" ++ "New Payment Made" ++ "' (status "
        ++ toString (404 : ℕ) ++ ")") ∧
    runWorkflow 200 500 [] [] ⟨2026, 1, 1⟩ [] []
      = .error ("Mixpanel fetch failed for '" ++ "Unpaid Signup User Details"
        ++ "' (status " ++ toString (500 : ℕ) ++ ")") :=
  ⟨((fetch_failure_aborts 404 200 [] [] ⟨2026, 1, 1⟩ [] []).1 (by decide)).1,
    ((fetch_failure_aborts 200 500 [] [] ⟨2026, 1, 1⟩ [] []).2.1 rfl (by decide)).1⟩

end AccountWF
